import Mathlib

/-!
Verification of the tool-routing / function-calling orchestration core of the
react-chat repository (sources: src/components/Chat.js, src/services/openai.js,
src/services/csvTools.js, src/services/youtubeTools.js).

Modelling conventions (shallow embedding of the JavaScript source):
* JS numbers are modelled as exact rationals (ℚ); `Number.prototype.toFixed(f)`
  followed by unary `+` is modelled as exact rounding to f decimal places with
  ties toward +∞ (the ECMA-262 "pick the larger n" rule).  `Math.sqrt` is
  modelled as `Real.sqrt` (see `stdOfVariance`).  NaN is modelled by `Option`
  (`none` = NaN) at the points where the source tests `isNaN`.
* A JS object holding row / video data is an association list from string keys
  to `CellVal` (string, number, null or undefined), preserving insertion order.
* JS regular expression tests used by the source are modelled character by
  character over a tiny pattern language (`RAtom`): every pattern in the source
  is an alternation of literal words, some with an optional any-character gap
  (`.?`), optionally surrounded by word boundaries (`\b`).
* Mutable JS arrays: each tool executor returns, next to its result, the
  post-call state of the caller's data array.  The only mutating array method
  the executors use is `sort`, and the source always applies it to a spread
  copy (`[...rows].sort`), modelled by the pure `jsSort` on a copy.
-/

namespace ReactChat

/-- A JavaScript value stored in a row/video object: a string cell, a numeric
cell, `null`, or `undefined` (absent). -/
inductive CellVal
  | str (s : String)
  | num (q : ℚ)
  | null
  | undefined
  deriving DecidableEq

/-- JS truthiness of a `CellVal` (no NaN values arise in the model). -/
def CellVal.truthy : CellVal → Bool
  | .str s => s ≠ ""
  | .num q => q ≠ 0
  | .null => false
  | .undefined => false

/-- JS `a || b` on cell values: first operand if truthy, else second. -/
def jsOr (a b : CellVal) : CellVal := if a.truthy then a else b

/-- One data row / video record: insertion-ordered string-keyed object. -/
abbrev Row := List (String × CellVal)

/-- Property read returning `none` when the key is absent. -/
def getField (r : Row) (k : String) : Option CellVal :=
  (r.find? (fun p => p.1 == k)).map (fun p => p.2)

/-- JS property read `r[k]`: `undefined` when the key is absent. -/
def jsGet (r : Row) (k : String) : CellVal := (getField r k).getD .undefined

/-- JS property write `r[k] = v` (overwrite in place, else append),
as performed by object spread `{...r, k: v}` and by `obj[h] = v`. -/
def setField (r : Row) (k : String) (v : CellVal) : Row :=
  if r.any (fun p => p.1 == k) then r.map (fun p => if p.1 == k then (k, v) else p)
  else r ++ [(k, v)]

/-- `Object.keys`: the distinct keys in insertion order. -/
def dedupKeysAux (seen : List String) : List String → List String
  | [] => []
  | k :: rest => if k ∈ seen then dedupKeysAux seen rest else k :: dedupKeysAux (k :: seen) rest

/-- `Object.keys r` for a row (rows built by `setField` have unique keys;
duplicates in an arbitrary list are collapsed to the first occurrence). -/
def dedupKeys (keys : List String) : List String := dedupKeysAux [] keys

/-- `Object.keys(rows[0])` with `[]` for an empty row set. -/
def headersOf (rows : List Row) : List String :=
  match rows with
  | [] => []
  | r :: _ => dedupKeys (r.map (fun p => p.1))

/-- Character-level lower casing, modelling JS `toLowerCase` on ASCII text. -/
def jsToLower (s : String) : String := String.mk (s.toList.map Char.toLower)

/-- Character-level trim of both ends, modelling JS `String.prototype.trim`. -/
def jsTrimChars (cs : List Char) : List Char :=
  ((cs.dropWhile Char.isWhitespace).reverse.dropWhile Char.isWhitespace).reverse

/-- JS `trim` on strings. -/
def jsTrim (s : String) : String := String.mk (jsTrimChars s.toList)

/-- `String.prototype.split('\n')`. -/
def splitNlChars : List Char → List (List Char)
  | [] => [[]]
  | '\n' :: rest => [] :: splitNlChars rest
  | c :: rest =>
    match splitNlChars rest with
    | [] => [[c]]
    | g :: gs => (c :: g) :: gs

/-- `text.split('\n')` as a list of lines. -/
def jsSplitNewline (s : String) : List String := (splitNlChars s.toList).map String.mk

/-- Value of a digit run, as read by `parseInt(ds, 10)`. -/
def digitsToNat (ds : List Char) : ℕ := ds.foldl (fun a c => a * 10 + (c.toNat - 48)) 0

/-- Longest leading decimal literal (sign, digits, optional fraction and
exponent) together with the unconsumed remainder; `none` when no digits lead.
JS `Infinity`/hex literals are not produced by the data this code parses and
are not modelled. -/
def parseNumLead (cs : List Char) : Option (ℚ × List Char) :=
  let signAndRest : ℚ × List Char :=
    match cs with
    | '-' :: t => (-1, t)
    | '+' :: t => (1, t)
    | _ => (1, cs)
  let sign := signAndRest.1
  let cs1 := signAndRest.2
  let ip := cs1.takeWhile Char.isDigit
  let cs2 := cs1.dropWhile Char.isDigit
  let fracAndRest : List Char × List Char :=
    match cs2 with
    | '.' :: t => (t.takeWhile Char.isDigit, t.dropWhile Char.isDigit)
    | _ => ([], cs2)
  let fp := fracAndRest.1
  let cs3 := fracAndRest.2
  if ip = [] ∧ fp = [] then none
  else
    let mant : ℚ := sign * ((digitsToNat ip : ℚ) + (digitsToNat fp : ℚ) / 10 ^ fp.length)
    let expCont : List Char → Option (ℚ × List Char) := fun t =>
      let esignAndRest : ℤ × List Char :=
        match t with
        | '-' :: u => (-1, u)
        | '+' :: u => (1, u)
        | _ => (1, t)
      let ds := esignAndRest.2.takeWhile Char.isDigit
      if ds = [] then some (mant, cs3)
      else some (mant * (10 : ℚ) ^ (esignAndRest.1 * (digitsToNat ds : ℤ)), esignAndRest.2.dropWhile Char.isDigit)
    match cs3 with
    | 'e' :: t => expCont t
    | 'E' :: t => expCont t
    | _ => some (mant, cs3)

/-- JS `parseFloat` on a string: skip leading whitespace, read the longest
numeric prefix; NaN (`none`) when no digits lead. -/
def parseFloat (s : String) : Option ℚ :=
  (parseNumLead (s.toList.dropWhile Char.isWhitespace)).map (fun p => p.1)

/-- JS `parseFloat` applied to an arbitrary cell value
(`parseFloat(null)`/`parseFloat(undefined)` are NaN; numbers pass through). -/
def parseFloatVal : CellVal → Option ℚ
  | .str s => parseFloat s
  | .num q => some q
  | .null => none
  | .undefined => none

/-- JS `Number(...)` coercion of a string: empty/whitespace is 0, otherwise the
whole trimmed string must be a numeric literal, else NaN. -/
def jsNumberOfString (s : String) : Option ℚ :=
  let t := jsTrim s
  if t = "" then some 0
  else
    match parseNumLead t.toList with
    | some (q, []) => some q
    | _ => none

/-- JS numeric coercion (`ToNumber`) of a cell value, `none` = NaN. -/
def toNumberVal : CellVal → Option ℚ
  | .num q => some q
  | .null => some 0
  | .str s => jsNumberOfString s
  | .undefined => none

/-- `+n.toFixed(4)`: rounding to 4 decimal places, ties toward +∞. -/
def fmt (q : ℚ) : ℚ := (⌊q * 10000 + 1 / 2⌋ : ℚ) / 10000

/-- `+n.toFixed(6)`: rounding to 6 decimal places, ties toward +∞. -/
def fmt6 (q : ℚ) : ℚ := (⌊q * 1000000 + 1 / 2⌋ : ℚ) / 1000000

/-- `+x.toFixed(4)` over the reals (needed after `Math.sqrt`). -/
noncomputable def fmtR (x : ℝ) : ℝ := (⌊x * 10000 + 1 / 2⌋ : ℝ) / 10000

/-- `+Math.sqrt(variance).toFixed(4)`: the `std` field the source computes
from the (population) variance. -/
noncomputable def stdOfVariance (variance : ℚ) : ℝ := fmtR (Real.sqrt (variance : ℝ))

/-- JS numeric `||` with a numeric default (`args.n || 10`): falsy (0) picks
the default. -/
def jsOrQ (o : Option ℚ) (d : ℚ) : ℚ :=
  match o with
  | some q => if q = 0 then d else q
  | none => d

/-- `Array.prototype.slice(0, n)` length for a (possibly fractional) JS bound:
truncate toward zero, clamp below at 0 (negative slice ends do not occur in
the modelled calls). -/
def qToSliceLen (q : ℚ) : ℕ := if q < 0 then 0 else (⌊q⌋).toNat

/-- Stable insertion of `x` into an already-sorted accumulator, placing `x`
after existing comparator-equal elements (JS `Array.prototype.sort` is
stable; a NaN comparator result is treated as 0 by the callers' `jsSub`). -/
def insertCmp {α : Type} (cmp : α → α → ℚ) (x : α) : List α → List α
  | [] => [x]
  | y :: ys => if cmp x y < 0 then x :: y :: ys else y :: insertCmp cmp x ys

/-- `Array.prototype.sort(cmp)` as a stable comparator sort on a copy. -/
def jsSort {α : Type} (cmp : α → α → ℚ) (l : List α) : List α :=
  l.foldl (fun acc x => insertCmp cmp x acc) []

/-- Comparator subtraction where either operand may be NaN (treated as 0,
matching `Array.prototype.sort`'s handling of a NaN comparator result). -/
def jsSub (x y : Option ℚ) : ℚ :=
  match x, y with
  | some a, some b => a - b
  | _, _ => 0

/-- `Math.min(...vals)` on a non-empty list (the callers guard emptiness). -/
def listMin : List ℚ → ℚ
  | [] => 0
  | x :: xs => xs.foldl min x

/-- `Math.max(...vals)`. -/
def listMax : List ℚ → ℚ
  | [] => 0
  | x :: xs => xs.foldl max x

/-- Substring test over char lists (`String.prototype.includes`). -/
def containsSubAux : List Char → List Char → Bool
  | _, [] => true
  | [], _ :: _ => false
  | h :: t, n => n.isPrefixOf (h :: t) || containsSubAux t n

/-- `hay.includes(needle)`. -/
def strContainsSub (hay needle : String) : Bool := containsSubAux hay.toList needle.toList

/-- Display conversion of a cell value inside a template string
(`${v}`); a non-integer number's JS decimal rendering is approximated by a
fraction rendering (never exercised by the modelled data). -/
def jsString : CellVal → String
  | .str s => s
  | .num q => if q.den = 1 then toString q.num else toString q.num ++ "/" ++ toString q.den
  | .null => "null"
  | .undefined => "undefined"

/-- Interpolation of a possibly-absent string argument (`${args.selector}`
prints `undefined` when the argument is missing). -/
def optStr (o : Option String) : String := o.getD "undefined"

/- ── Regex model ──────────────────────────────────────────────────────────
Every regular expression the routing/tool code tests is an alternation of
literal words, some containing a `.?` gap, matched case-insensitively and
(for the keyword sets) surrounded by `\b` word boundaries. -/

/-- One atom of a source pattern: a literal character (stored lower case) or
an optional any-character gap (`.?`; JS `.` excludes line terminators). -/
inductive RAtom
  | lit (c : Char)
  | optAny

/-- Match one atom at the head of the input; returns all possible
(last-consumed-char, remainder) continuations. -/
def matchRAtom : RAtom → Option Char → List Char → List (Option Char × List Char)
  | .lit _, _, [] => []
  | .lit c, _, d :: rest => if d.toLower = c then [(some d, rest)] else []
  | .optAny, prev, cs =>
    (prev, cs) ::
      (match cs with
       | [] => []
       | d :: rest => if d = '\n' ∨ d = '\r' then [] else [(some d, rest)])

/-- Match a pattern sequence; nondeterministic because of `.?`. -/
def matchRSeq : List RAtom → Option Char → List Char → List (Option Char × List Char)
  | [], prev, cs => [(prev, cs)]
  | a :: as, prev, cs => (matchRAtom a prev cs).flatMap (fun pr => matchRSeq as pr.1 pr.2)

/-- JS `\w`: ASCII letter, digit or underscore. -/
def isWordChar (c : Char) : Bool := c.isAlphanum || c = '_'

/-- JS `\b` between the characters `prev` and `next` (either may be the edge
of the string). -/
def wordBoundary (prev next : Option Char) : Bool :=
  (match prev with | some c => isWordChar c | none => false) !=
    (match next with | some c => isWordChar c | none => false)

/-- `.test` of `/\b(alt1|...|altn)\b/i`: search every start position, requiring
a word boundary before and after the matched alternative. -/
def testWordRegexFrom (alts : List (List RAtom)) (prev : Option Char) : List Char → Bool
  | [] =>
    wordBoundary prev none &&
      alts.any (fun p => (matchRSeq p prev []).any (fun pr => wordBoundary pr.1 pr.2.head?))
  | c :: rest =>
    (wordBoundary prev (some c) &&
        alts.any (fun p => (matchRSeq p prev (c :: rest)).any (fun pr => wordBoundary pr.1 pr.2.head?)))
      || testWordRegexFrom alts (some c) rest

/-- `.test` of a `\b`-delimited case-insensitive keyword alternation. -/
def testWordRegex (alts : List (List RAtom)) (s : String) : Bool :=
  testWordRegexFrom alts none s.toList

/-- `.test` of a plain (unanchored, no `\b`) case-insensitive alternation. -/
def searchRegexFrom (alts : List (List RAtom)) : List Char → Bool
  | [] => alts.any (fun p => !(matchRSeq p none []).isEmpty)
  | c :: rest =>
    alts.any (fun p => !(matchRSeq p none (c :: rest)).isEmpty) || searchRegexFrom alts rest

/-- `.test` of an unanchored case-insensitive alternation against a string. -/
def searchRegex (alts : List (List RAtom)) (s : String) : Bool := searchRegexFrom alts s.toList

/-- Literal word pattern (stored lower case). -/
def litsP (s : String) : List RAtom := s.toList.map RAtom.lit

/-- `/favorite.?count/i`. -/
def favoriteCountPat : List (List RAtom) := [litsP "favorite" ++ [RAtom.optAny] ++ litsP "count"]

/-- `/view.?count/i`. -/
def viewCountPat : List (List RAtom) := [litsP "view" ++ [RAtom.optAny] ++ litsP "count"]

/-- `/text|content|tweet|body/i`. -/
def textColPat : List (List RAtom) := [litsP "text", litsP "content", litsP "tweet", litsP "body"]

/-- The `PYTHON_ONLY_KEYWORDS` alternation from `Chat.js` (`handleSend`). -/
def PYTHON_ONLY_KEYWORDS : List (List RAtom) :=
  [litsP "regression", litsP "scatter", litsP "histogram", litsP "seaborn", litsP "matplotlib",
   litsP "numpy", litsP "time" ++ [RAtom.optAny] ++ litsP "series", litsP "heatmap",
   litsP "box" ++ [RAtom.optAny] ++ litsP "plot", litsP "violin", litsP "distribut",
   litsP "linear" ++ [RAtom.optAny] ++ litsP "model", litsP "logistic", litsP "forecast",
   litsP "trend" ++ [RAtom.optAny] ++ litsP "line"]

/-- The `CODE_KEYWORDS` alternation from `openai.js`. -/
def CODE_KEYWORDS : List (List RAtom) :=
  [litsP "plot", litsP "chart", litsP "graph", litsP "analyz", litsP "statistic",
   litsP "regression", litsP "correlat", litsP "histogram", litsP "visualiz", litsP "calculat",
   litsP "compute", litsP "run code", litsP "write code", litsP "execute", litsP "pandas",
   litsP "numpy", litsP "matplotlib", litsP "csv", litsP "data"]

/- ── Mode selector (Chat.js handleSend) ─────────────────────────────────── -/

/-- The state `handleSend` inspects when routing a turn. -/
structure SendState where
  text : String
  sessionCsvRows : Bool
  csvContext : Bool
  sessionJsonData : Bool
  imagesAttached : Bool
  deriving DecidableEq

/-- `PYTHON_ONLY_KEYWORDS.test(text)`. -/
def wantPythonOnly (st : SendState) : Bool := testWordRegex PYTHON_ONLY_KEYWORDS st.text

/-- `CODE_KEYWORDS.test(text) && !sessionCsvRows`. -/
def wantCode (st : SendState) : Bool := testWordRegex CODE_KEYWORDS st.text && !st.sessionCsvRows

/-- `useTools` flag of `handleSend`. -/
def useTools (st : SendState) : Bool :=
  st.sessionCsvRows && !wantPythonOnly st && !wantCode st && !st.csvContext

/-- `useYoutubeTools` flag of `handleSend`. -/
def useYoutubeTools (st : SendState) : Bool :=
  (st.sessionJsonData || st.imagesAttached) && !st.sessionCsvRows

/-- `useCodeExecution` flag of `handleSend`. -/
def useCodeExecution (st : SendState) : Bool := wantPythonOnly st || wantCode st

/-- The four execution modes of the specification's Mode Selector. -/
inductive Mode
  | youtubeTools
  | csvTools
  | codeExecution
  | streaming
  deriving DecidableEq

/-- The mode actually executed by `handleSend`'s dispatch:
`if (useYoutubeTools) … else if (useTools) … else streamChat(…, useCodeExecution)`;
the last branch is the spec's code-execution mode when `useCodeExecution` is
set and plain streaming otherwise. -/
def selectMode (st : SendState) : Mode :=
  if useYoutubeTools st then .youtubeTools
  else if useTools st then .csvTools
  else if useCodeExecution st then .codeExecution
  else .streaming

/- ── Tabular parser (csvTools.js) ───────────────────────────────────────── -/

/-- `parseLine`: split one CSV line on commas outside double quotes, trimming
each field (quote characters toggle the in-quotes flag and are dropped). -/
def parseLine (line : String) : List String :=
  let step :=
    line.toList.foldl
      (fun (acc : List String × List Char × Bool) ch =>
        if ch = '"' then (acc.1, acc.2.1, !acc.2.2)
        else if ch = ',' ∧ acc.2.2 = false then
          (acc.1 ++ [String.mk (jsTrimChars acc.2.1)], [], acc.2.2)
        else (acc.1, acc.2.1 ++ [ch], acc.2.2))
      ([], [], false)
  step.1 ++ [String.mk (jsTrimChars step.2.1)]

/-- `.replace(/^"|"$/g, '')`: drop one leading and one trailing quote. -/
def stripOuterQuotes (s : String) : String :=
  let cs1 :=
    match s.toList with
    | '"' :: rest => rest
    | cs => cs
  String.mk (if cs1.getLast? = some '"' then cs1.dropLast else cs1)

/-- The result shape of `parseCsvToRows`. -/
structure ParsedCsv where
  headers : List String
  rows : List Row
  deriving DecidableEq

/-- The `lines` local of `parseCsvToRows`: `text.split('\n').filter(l => l.trim())`. -/
def csvLines (text : String) : List String :=
  (jsSplitNewline text).filter (fun l => jsTrim l ≠ "")

/-- `parseCsvToRows`: non-blank lines; first line is the header; one row per
further line, missing trailing fields becoming empty strings.  Returns an
empty result (never throws) when fewer than 2 non-blank lines are present. -/
def parseCsvToRows (text : String) : ParsedCsv :=
  if (csvLines text).length < 2 then ⟨[], []⟩
  else
    let headers := (parseLine ((csvLines text).headD "")).map stripOuterQuotes
    let rows := (csvLines text).tail.map (fun line =>
      let vals := parseLine line
      headers.enum.foldl
        (fun obj ih => setField obj ih.2 (.str (stripOuterQuotes (vals.getD ih.1 "")))) [])
    ⟨headers, rows⟩

/- ── Statistics engine (csvTools.js) ────────────────────────────────────── -/

/-- `s.toLowerCase().replace(/[\s_-]+/g, '')`. -/
def normName (s : String) : String :=
  String.mk ((s.toList.map Char.toLower).filter (fun c => !(c.isWhitespace || c == '_' || c == '-')))

/-- `resolveCol`: exact header match first, then normalized match, else the
requested name unchanged (an absent argument passes through as `none`). -/
def resolveCol (rows : List Row) (name : Option String) : Option String :=
  if rows.isEmpty ∨ name = none ∨ name = some "" then name
  else
    match rows, name with
    | r :: _, some n =>
      let keys := dedupKeys (r.map (fun p => p.1))
      if keys.contains n then some n
      else
        match keys.find? (fun k => normName k == normName n) with
        | some k => some k
        | none => some n
    | _, _ => name

/-- JS property read through a possibly-absent column name (`r[undefined]`
reads the key `"undefined"`). -/
def jsGetO (r : Row) (k : Option String) : CellVal := jsGet r (k.getD "undefined")

/-- `numericValues`: `rows.map(r => parseFloat(r[col])).filter(v => !isNaN(v))`. -/
def numericValues (rows : List Row) (col : Option String) : List ℚ :=
  rows.filterMap (fun r => parseFloatVal (jsGetO r col))

/-- `median(sorted)`: average the two middle elements for even length, middle
element for odd length (callers guard non-emptiness). -/
def medianSorted (sorted : List ℚ) : ℚ :=
  if sorted.length % 2 = 0 then
    ((sorted.get? (sorted.length / 2 - 1)).getD 0 + (sorted.get? (sorted.length / 2)).getD 0) / 2
  else (sorted.get? (sorted.length / 2)).getD 0

/- ── Engagement enrichment (csvTools.js) ───────────────────────────────── -/

/-- The favorite column: `/favorite.?count/i` header, else `/^likes?$/i`. -/
def favoriteColumn (headers : List String) : Option String :=
  (headers.find? (fun h => searchRegex favoriteCountPat h)).orElse
    (fun _ => headers.find? (fun h => jsToLower h == "like" || jsToLower h == "likes"))

/-- The view column: `/view.?count/i` header, else `/^views?$/i`. -/
def viewColumn (headers : List String) : Option String :=
  (headers.find? (fun h => searchRegex viewCountPat h)).orElse
    (fun _ => headers.find? (fun h => jsToLower h == "view" || jsToLower h == "views"))

/-- The per-row engagement value: `+(fav/view).toFixed(6)` when both counts
parse and the view count is positive, else `null`. -/
def engagementCell (r : Row) (fc vc : String) : CellVal :=
  match parseFloatVal (jsGet r fc), parseFloatVal (jsGet r vc) with
  | some fav, some view => if 0 < view then .num (fmt6 (fav / view)) else .null
  | _, _ => .null

/-- `enrichWithEngagement`: append a computed `engagement` column when the
favorite/view columns are found and the column is not already present. -/
def enrichWithEngagement (rows : List Row) (headers : List String) : List Row × List String :=
  if rows.isEmpty then (rows, headers)
  else
    match favoriteColumn headers, viewColumn headers with
    | some fc, some vc =>
      if headers.contains "engagement" then (rows, headers)
      else
        (rows.map (fun r => setField r "engagement" (engagementCell r fc vc)),
         headers ++ ["engagement"])
    | _, _ => (rows, headers)

/- ── CSV tool executor (csvTools.js executeTool) ───────────────────────── -/

/-- The record returned by `compute_column_stats`.  The source's `std` field is
`+Math.sqrt(variance).toFixed(4)`; since the square root is real-valued it is
kept as the derived `ColumnStats.std` over the stored (population) variance. -/
structure ColumnStats where
  column : Option String
  count : ℕ
  mean : ℚ
  median : ℚ
  variance : ℚ
  min : ℚ
  max : ℚ
  deriving DecidableEq

/-- The `std` field of the source's stats record. -/
noncomputable def ColumnStats.std (s : ColumnStats) : ℝ := stdOfVariance s.variance

/-- Arguments of a CSV tool call (absent JSON properties are `none`). -/
structure CsvArgs where
  column : Option String
  top_n : Option ℚ
  sort_column : Option String
  n : Option ℚ
  ascending : Option Bool
  deriving DecidableEq

/-- A CSV tool result: the structured success shapes or an `{error}` object. -/
inductive CsvToolResult
  | error (msg : String)
  | stats (s : ColumnStats)
  | valueCounts (column : Option String) (total_rows : ℕ) (value_counts : List (CellVal × ℕ))
  | topTweets (sort_column : Option String) (direction : String) (count : ℕ) (tweets : List Row)
  deriving DecidableEq

/-- The `compute_column_stats` case of `executeTool`; the second component is
the post-call state of the caller's `rows` array. -/
def csvComputeColumnStats (args : CsvArgs) (rows : List Row) : CsvToolResult × List Row :=
  let col := resolveCol rows args.column
  let vals := numericValues rows col
  if vals.isEmpty then
    (.error ("No numeric values found in column \"" ++ optStr col ++ "\". Available columns: "
        ++ String.intercalate ", " (headersOf rows)), rows)
  else
    let mean : ℚ := vals.sum / vals.length
    let sorted := jsSort (fun a b => a - b) vals
    let variance : ℚ := (vals.map (fun b => (b - mean) ^ 2)).sum / vals.length
    (.stats ⟨col, vals.length, fmt mean, fmt (medianSorted sorted), variance,
       listMin vals, listMax vals⟩, rows)

/-- Increment the count of `v` in an insertion-ordered tally
(`counts[v] = (counts[v] || 0) + 1`; JS object-key stringification that could
conflate a numeric and a string key is not exercised by the data). -/
def bumpCount (acc : List (CellVal × ℕ)) (v : CellVal) : List (CellVal × ℕ) :=
  if acc.any (fun p => p.1 == v) then acc.map (fun p => if p.1 == v then (p.1, p.2 + 1) else p)
  else acc ++ [(v, 1)]

/-- The `get_value_counts` case of `executeTool`. -/
def csvGetValueCounts (args : CsvArgs) (rows : List Row) : CsvToolResult × List Row :=
  let col := resolveCol rows args.column
  let topN := jsOrQ args.top_n 10
  let counts := rows.foldl
    (fun acc r =>
      let v := jsGetO r col
      if v ≠ .undefined ∧ v ≠ .str "" then bumpCount acc v else acc) []
  let sorted := (jsSort (fun a b => (b.2 : ℚ) - (a.2 : ℚ)) counts).take (qToSliceLen topN)
  (.valueCounts col rows.length sorted, rows)

/-- `String(r[textCol] || '').slice(0, 150)`. -/
def textPreview (v : CellVal) : String := String.mk ((jsString (jsOr v (.str ""))).toList.take 150)

/-- The `get_top_tweets` case of `executeTool`.  The source's
`resolveCol(rows, c) || c` fallback only fires when `resolveCol` returned the
falsy requested name itself, so it is the identity here. -/
def csvGetTopTweets (args : CsvArgs) (rows : List Row) : CsvToolResult × List Row :=
  let availableHeaders := headersOf rows
  let sortCol := resolveCol rows args.sort_column
  let n := jsOrQ args.n 10
  let asc := args.ascending.getD false
  let textCol := (availableHeaders.find? (fun h => jsToLower h == "text")).orElse
    (fun _ => availableHeaders.find? (fun h => searchRegex textColPat h))
  let favCol := availableHeaders.find? (fun h => searchRegex favoriteCountPat h)
  let viewCol := availableHeaders.find? (fun h => searchRegex viewCountPat h)
  let engCol : Option String :=
    if availableHeaders.contains "engagement" then some "engagement" else none
  let sorted := jsSort
    (fun a b =>
      match parseFloatVal (jsGetO a sortCol), parseFloatVal (jsGetO b sortCol) with
      | some av, some bv => if asc then av - bv else bv - av
      | _, _ => 0)
    rows
  let topRows := ((sorted.take (qToSliceLen n)).enum).map (fun ir =>
    let out : Row := [("rank", .num (ir.1 + 1 : ℕ))]
    let out := match textCol with
      | some tc => out ++ [("text", .str (textPreview (jsGet ir.2 tc)))]
      | none => out
    let out := match favCol with
      | some fc => setField out fc (jsGet ir.2 fc)
      | none => out
    let out := match viewCol with
      | some vc => setField out vc (jsGet ir.2 vc)
      | none => out
    match engCol with
    | some _ => setField out "engagement" (jsGet ir.2 "engagement")
    | none => out)
  if topRows.isEmpty then
    (.error ("No rows found. Column \"" ++ optStr sortCol ++ "\" may not exist. Available: "
        ++ String.intercalate ", " availableHeaders), rows)
  else
    (.topTweets sortCol
      (if asc then "ascending (lowest first)" else "descending (highest first)")
      topRows.length topRows, rows)

/-- `executeTool` (csvTools.js): dispatch on the tool name; the second
component of the result is the post-call state of the caller's `rows` array
(no case mutates it — `get_top_tweets` sorts a spread copy). -/
def executeTool (toolName : String) (args : CsvArgs) (rows : List Row) :
    CsvToolResult × List Row :=
  if toolName = "compute_column_stats" then csvComputeColumnStats args rows
  else if toolName = "get_value_counts" then csvGetValueCounts args rows
  else if toolName = "get_top_tweets" then csvGetTopTweets args rows
  else (.error ("Unknown tool: " ++ toolName), rows)

/- ── YouTube metadata tool set (youtubeTools.js) ───────────────────────── -/

/-- `parseDuration`'s regex search: the chars after the first `"PT"`
occurrence (`/PT.../` is unanchored, so it matches anywhere). -/
def findPT : List Char → Option (List Char)
  | 'P' :: 'T' :: rest => some rest
  | _ :: rest => findPT rest
  | [] => none

/-- One optional `(?:(\d+)X)?` component: digits immediately followed by the
unit letter, else absent (input position unchanged). -/
def durComponent (cs : List Char) (unit : Char) : Option ℕ × List Char :=
  let ds := cs.takeWhile Char.isDigit
  match cs.dropWhile Char.isDigit with
  | u :: rest => if ds ≠ [] ∧ u = unit then (some (digitsToNat ds), rest) else (none, cs)
  | [] => (none, cs)

/-- `parseDuration`: `/PT(?:(\d+)H)?(?:(\d+)M)?(?:(\d+)S)?/` with absent
groups counted as 0; `null` when the input is not a non-empty string or the
regex does not match (i.e. no `"PT"` occurs). -/
def parseDuration (s : String) : Option ℕ :=
  match findPT s.toList with
  | none => none
  | some rest =>
    let hPart := durComponent rest 'H'
    let mPart := durComponent hPart.2 'M'
    let sPart := durComponent mPart.2 'S'
    some ((hPart.1.getD 0) * 3600 + (mPart.1.getD 0) * 60 + sPart.1.getD 0)

/-- `parseDuration` applied to a raw cell (`!dur || typeof dur !== 'string'`
yields `null` for non-strings and the empty string). -/
def parseDurationVal : CellVal → Option ℕ
  | .str s => if s = "" then none else parseDuration s
  | _ => none

/-- The numeric value a YouTube statistics/plot tool extracts from one video
for `field`: special ISO-duration handling for `duration`/`duration_seconds`
(with numeric fallback), plain `typeof val === 'number' ? val : parseFloat(val)`
otherwise; `none` models null/NaN (filtered out by the callers). -/
def ytStatValue (field : String) (v : Row) : Option ℚ :=
  if field = "duration" ∨ field = "duration_seconds" then
    match parseDurationVal (jsOr (jsGet v "duration") (jsGet v "duration_seconds")) with
    | some n => some (n : ℚ)
    | none =>
      match jsGet v field with
      | .num q => some q
      | _ => none
  else
    match jsGet v field with
    | .num q => some q
    | other => parseFloatVal other

/-- Days since the Unix epoch of a proleptic-Gregorian civil date
(standard era/year-of-era formula, floor division). -/
def daysFromCivil (y m d : ℤ) : ℤ :=
  let yAdj := if m ≤ 2 then y - 1 else y
  let era := Int.fdiv yAdj 400
  let yoe := yAdj - era * 400
  let mp := Int.fmod (m + 9) 12
  let doy := Int.fdiv (153 * mp + 2) 5 + d - 1
  let doe := yoe * 365 + Int.fdiv yoe 4 - Int.fdiv yoe 100 + doy
  era * 146097 + doe - 719468

/-- Numeric value of a two-digit group. -/
def digits2 (a b : Char) : ℕ := (a.toNat - 48) * 10 + (b.toNat - 48)

/-- `new Date(s).getTime()` for the ISO-8601 timestamps the channel-data
producer emits (`YYYY-MM-DD` with optional `THH:MM[:SS…]`); other strings give
an invalid date (`none` = NaN, which the sort comparator treats as 0). -/
def parseIsoDate (s : String) : Option ℚ :=
  match s.toList with
  | y1 :: y2 :: y3 :: y4 :: '-' :: m1 :: m2 :: '-' :: d1 :: d2 :: rest =>
    if ([y1, y2, y3, y4, m1, m2, d1, d2].all Char.isDigit) then
      let y : ℤ := (digits2 y1 y2) * 100 + digits2 y3 y4
      let mo : ℤ := digits2 m1 m2
      let da : ℤ := digits2 d1 d2
      let timeVal : Option ℚ :=
        match rest with
        | [] => some 0
        | 'T' :: h1 :: h2 :: ':' :: n1 :: n2 :: rest2 =>
          if ([h1, h2, n1, n2].all Char.isDigit) then
            let base : ℚ := (digits2 h1 h2) * 3600 + (digits2 n1 n2) * 60
            match rest2 with
            | ':' :: s1 :: s2 :: _ =>
              if s1.isDigit ∧ s2.isDigit then some (base + digits2 s1 s2) else none
            | _ => some base
          else none
        | _ => none
      match timeVal with
      | some t => some (((daysFromCivil y mo da : ℤ) : ℚ) * 86400000 + t * 1000)
      | none => none
    else none
  | _ => none

/-- `new Date(x).getTime()` on a cell used as a date. -/
def dateMillis : CellVal → Option ℚ
  | .num q => some q
  | .str s => parseIsoDate s
  | _ => none

/-- `(v.view_count || 0)` coerced to a number by the sort comparator's
subtraction. -/
def viewNum (v : Row) : Option ℚ := toNumberVal (jsOr (jsGet v "view_count") (.num 0))

/-- A YouTube tool result: `{error}`, one of the chart payload shapes, the
stats record, or the image-generation delegate's response. -/
inductive YtToolResult
  | error (msg : String)
  | metricVsTime (metricField : String) (data : List (CellVal × ℚ))
  | playVideo (title : CellVal) (thumbnail_url : CellVal) (video_url : CellVal) (video_id : CellVal)
  | statsJson (field : String) (count : ℕ) (mean median variance min max : ℚ)
  | generatedImage (imageData : String) (mimeType : String) (prompt : String)
  deriving DecidableEq

/-- Arguments of a YouTube tool call (absent JSON properties are `none`). -/
structure YtArgs where
  prompt : Option String
  use_anchor : Option Bool
  metric_field : Option String
  selector : Option String
  field : Option String
  deriving DecidableEq

/-- The channel dataset: the orchestration core only reads `videos`. -/
structure Channel where
  videos : List Row
  deriving DecidableEq

/-- The `plot_metric_vs_time` case of `executeYoutubeTool`; second component
is the post-call state of the `videos` array. -/
def ytPlotMetricVsTime (args : YtArgs) (videos : List Row) : YtToolResult × List Row :=
  let field := args.metric_field.getD "undefined"
  let withDates : List (CellVal × ℚ) := videos.filterMap (fun v =>
    let val := ytStatValue field v
    let date := jsOr (jsGet v "published_at") (jsGet v "release_date")
    match val with
    | some q => if date.truthy then some (date, q) else none
    | none => none)
  let sorted := jsSort (fun a b => jsSub (dateMillis a.1) (dateMillis b.1)) withDates
  if sorted.isEmpty then
    (.error ("No valid data for field \"" ++ field ++ "\". Available: "
        ++ String.intercalate ", " (headersOf videos)), videos)
  else (.metricVsTime field sorted, videos)

/-- The named-ordinal table of `play_video`
(`{first:0,…,fifth:4,'1st':0,…,'5th':4}`). -/
def ordinalIndex (sel : String) : Option ℕ :=
  if sel = "first" ∨ sel = "1st" then some 0
  else if sel = "second" ∨ sel = "2nd" then some 1
  else if sel = "third" ∨ sel = "3rd" then some 2
  else if sel = "fourth" ∨ sel = "4th" then some 3
  else if sel = "fifth" ∨ sel = "5th" then some 4
  else none

/-- `/^video\s+(\d+)$/` on the selector. -/
def videoNumSel (sel : String) : Option ℕ :=
  match sel.toList with
  | 'v' :: 'i' :: 'd' :: 'e' :: 'o' :: rest =>
    let ws := rest.takeWhile Char.isWhitespace
    let ds := rest.dropWhile Char.isWhitespace
    if ws ≠ [] ∧ ds ≠ [] ∧ ds.all Char.isDigit then some (digitsToNat ds) else none
  | _ => none

/-- `/^\d+$/.test(sel) ? parseInt(sel, 10) - 1 : null`. -/
def plainNumSel (sel : String) : Option ℤ :=
  if sel.toList ≠ [] ∧ sel.toList.all Char.isDigit then some ((digitsToNat sel.toList : ℤ) - 1)
  else none

/-- `videos[i]` for a possibly-negative JS index. -/
def intIndex (videos : List Row) (i : ℤ) : Option Row :=
  if i < 0 then none else videos.get? i.toNat

/-- The later branches of the `play_video` selector chain
(`last`/`most recent`, `most viewed`, `least viewed`, fuzzy title match). -/
def pickVideoLate (videos : List Row) (sel : String) : Option Row :=
  if sel = "last" ∨ sel = "most recent" then videos.getLast?
  else if sel = "most viewed" then
    (jsSort (fun a b => jsSub (viewNum b) (viewNum a)) videos).head?
  else if sel = "least viewed" then
    (jsSort (fun a b => jsSub (viewNum a) (viewNum b)) videos).head?
  else videos.find? (fun v => strContainsSub (jsToLower (jsString (jsOr (jsGet v "title") (.str "")))) sel)

/-- The full `play_video` selector resolution, in the source's branch order. -/
def pickVideo (videos : List Row) (sel : String) : Option Row :=
  if sel = "first" ∨ sel = "1" then videos.head?
  else
    match ordinalIndex sel with
    | some i => videos.get? i
    | none =>
      match videoNumSel sel with
      | some nn => intIndex videos ((nn : ℤ) - 1)
      | none =>
        match plainNumSel sel with
        | some i => if 0 ≤ i then intIndex videos i else pickVideoLate videos sel
        | none => pickVideoLate videos sel

/-- The `play_video` case of `executeYoutubeTool`. -/
def ytPlayVideo (args : YtArgs) (videos : List Row) : YtToolResult × List Row :=
  let sel := jsTrim (jsToLower (args.selector.getD ""))
  match pickVideo videos sel with
  | none => (.error ("No video found for \"" ++ optStr args.selector ++ "\""), videos)
  | some v =>
    let vid := jsGet v "video_id"
    let thumb : CellVal :=
      if vid.truthy then .str ("https://img.youtube.com/vi/" ++ jsString vid ++ "/hqdefault.jpg")
      else jsOr (jsGet v "thumbnail_url") (.str "")
    (.playVideo (jsOr (jsGet v "title") (.str "Video")) thumb
      (jsOr (jsGet v "video_url") (.str ("https://www.youtube.com/watch?v=" ++ jsString vid)))
      vid, videos)

/-- The `compute_stats_json` case of `executeYoutubeTool`.  As in
`ColumnStats`, the pre-square-root population variance is stored and the
source's rounded `std` field is `stdOfVariance variance`. -/
def ytComputeStatsJson (args : YtArgs) (videos : List Row) : YtToolResult × List Row :=
  let field := args.field.getD "undefined"
  let values := videos.filterMap (fun v => ytStatValue field v)
  if values.isEmpty then
    (.error ("No numeric values for \"" ++ field ++ "\". Available: "
        ++ String.intercalate ", " (headersOf videos)), videos)
  else
    let sorted := jsSort (fun a b => a - b) values
    let mean : ℚ := sorted.sum / sorted.length
    let variance : ℚ := (sorted.map (fun b => (b - mean) ^ 2)).sum / sorted.length
    (.statsJson field sorted.length (fmt mean) (fmt (medianSorted sorted)) variance
      (sorted.headD 0) (sorted.getLastD 0), videos)

/-- The "no data loaded" error of `executeYoutubeTool`. -/
def noDataMsg : String :=
  "No YouTube channel data loaded. Please drag a channel JSON file into the chat first."

/-- The `videos` local of `executeYoutubeTool`: `channelData?.videos || []`. -/
def channelVideos (channelData : Option Channel) : List Row :=
  (channelData.map Channel.videos).getD []

/-- `executeYoutubeTool` (youtubeTools.js): guard every tool except
`generateImage` behind the no-data check, then dispatch on the tool name.
`generateImageFn` is the external image-generation delegate (its resolved
response is relayed as the result); the second component is the post-call
state of the `videos` array. -/
def executeYoutubeTool (toolName : String) (args : YtArgs) (channelData : Option Channel)
    (anchorImage : Option String)
    (generateImageFn : Option (Option String → Option String → YtToolResult)) :
    YtToolResult × List Row :=
  if (channelVideos channelData).isEmpty ∧ toolName ≠ "generateImage" then
    (.error noDataMsg, channelVideos channelData)
  else if toolName = "generateImage" then
    match generateImageFn with
    | none => (.error "Image generation not available", channelVideos channelData)
    | some f => (f args.prompt anchorImage, channelVideos channelData)
  else if toolName = "plot_metric_vs_time" then ytPlotMetricVsTime args (channelVideos channelData)
  else if toolName = "play_video" then ytPlayVideo args (channelVideos channelData)
  else if toolName = "compute_stats_json" then ytComputeStatsJson args (channelVideos channelData)
  else (.error ("Unknown tool: " ++ toolName), channelVideos channelData)

/- ── Function-calling orchestrator (openai.js) ─────────────────────────── -/

/-- One tool call requested by the model (`{id, function: {name, arguments}}`;
the JSON argument payload is abstracted to a type `A`). -/
structure ToolCallReq (A : Type) where
  id : String
  name : String
  args : A

/-- One model response message (`choices[0].message`). -/
structure ModelMsg (A : Type) where
  content : Option String
  tool_calls : List (ToolCallReq A)

/-- A conversation message of the orchestrator's working `messages` array. -/
inductive ChatMsg (A R : Type)
  | system (content : String)
  | user (content : String)
  | assistantCalls (content : Option String) (tool_calls : List (ToolCallReq A))
  | toolResult (tool_call_id : String) (content : R)

/-- One entry of the accumulated tool-call log (`{name, args, result}`). -/
structure ToolCallRec (A R : Type) where
  name : String
  args : A
  result : R

/-- What a tool-calling chat turn returns: `{text, charts, toolCalls}`. -/
structure ChatOutcome (A R : Type) where
  text : String
  charts : List R
  toolCalls : List (ToolCallRec A R)

/-- The bounded round loop shared by `chatWithCsvTools` and
`chatWithYoutubeTools` (`for (let round = 0; round < 5; round++)`): ask the
model (`respond` abstracts the completion endpoint; `none` is a response with
no message, the source's `break`), finish with the response text when it
requests no tool calls, otherwise execute every requested call, log it,
collect chart-typed results, feed sanitized results back, and loop.  Fuel
exhaustion returns `{text: '', charts, toolCalls}`. -/
def chatRoundsAux {A R : Type} (respond : List (ChatMsg A R) → Option (ModelMsg A))
    (execute : String → A → R) (hasChartType : R → Bool) (sanitize : R → R) :
    ℕ → List (ChatMsg A R) → List R → List (ToolCallRec A R) → ChatOutcome A R
  | 0, _, charts, calls => ⟨"", charts, calls⟩
  | nn + 1, msgs, charts, calls =>
    match respond msgs with
    | none => ⟨"", charts, calls⟩
    | some m =>
      if m.tool_calls.isEmpty then ⟨m.content.getD "", charts, calls⟩
      else
        let results := m.tool_calls.map (fun tc => (tc, execute tc.name tc.args))
        chatRoundsAux respond execute hasChartType sanitize nn
          ((msgs ++ [ChatMsg.assistantCalls m.content m.tool_calls])
            ++ results.map (fun p => ChatMsg.toolResult p.1.id (sanitize p.2)))
          (charts ++ (results.map (fun p => p.2)).filter hasChartType)
          (calls ++ results.map (fun p => ⟨p.1.name, p.1.args, p.2⟩))

/-- `chatWithCsvTools` (openai.js): 5-round tool loop over the prepared base
messages; the CSV path serializes results unchanged (`sanitize` is the
identity) and `hasChartType` models the `result?._chartType` truthiness
check on the dynamic result value. -/
def chatWithCsvTools {A R : Type} (respond : List (ChatMsg A R) → Option (ModelMsg A))
    (execute : String → A → R) (hasChartType : R → Bool)
    (baseMessages : List (ChatMsg A R)) : ChatOutcome A R :=
  chatRoundsAux respond execute hasChartType (fun r => r) 5 baseMessages [] []

/-- No CSV tool result carries a `_chartType` field. -/
def csvHasChartType : CsvToolResult → Bool := fun _ => false

/-- The `result?._chartType` check of the YouTube loop. -/
def ytHasChartType : YtToolResult → Bool
  | .metricVsTime _ _ => true
  | .playVideo _ _ _ _ => true
  | .generatedImage _ _ _ => true
  | _ => false

/-- The YouTube loop's sanitization of the result serialized back to the API:
a generated image's base64 payload is replaced by a placeholder (the advisory
`_note` strings added for images and video cards carry no data and are not
modelled). -/
def ytSanitizeForApi : YtToolResult → YtToolResult
  | .generatedImage _ mt p => .generatedImage "[displayed above]" mt p
  | r => r

/-- `chatWithYoutubeTools` (openai.js): 5-round tool loop with chart
collection and result sanitization. -/
def chatWithYoutubeTools {A : Type}
    (respond : List (ChatMsg A YtToolResult) → Option (ModelMsg A))
    (execute : String → A → YtToolResult)
    (baseMessages : List (ChatMsg A YtToolResult)) : ChatOutcome A YtToolResult :=
  chatRoundsAux respond execute ytHasChartType ytSanitizeForApi 5 baseMessages [] []

/- ── Spec-side reference definitions ───────────────────────────────────── -/

/-- Zero or more digits followed by the unit letter, as one optional component
of the spec's duration grammar; `none` when the component is absent. -/
def specDurComponent (cs : List Char) (unit : Char) : Option (List Char) :=
  let ds := cs.takeWhile Char.isDigit
  match cs.dropWhile Char.isDigit with
  | u :: rest => if ds ≠ [] ∧ u = unit then some rest else none
  | [] => none

/-- Modelled from the spec: §4.4 describes the duration format as the
ISO-8601 duration string "PT#H#M#S" (hour, minute, second components in that
order, each optional but at least one present, nothing else in the string).
This is the reference notion of "a string that can be parsed as a duration"
quantified over by the duration-parsing claim. -/
def specIsoDuration (s : String) : Bool :=
  match s.toList with
  | 'P' :: 'T' :: rest =>
    let hOpt := specDurComponent rest 'H'
    let afterH := hOpt.getD rest
    let mOpt := specDurComponent afterH 'M'
    let afterM := mOpt.getD afterH
    let sOpt := specDurComponent afterM 'S'
    let afterS := sOpt.getD afterM
    afterS.isEmpty && (hOpt.isSome || mOpt.isSome || sOpt.isSome)
  | _ => false

/- ── Concrete data used by witnesses and counterexamples ───────────────── -/

/-- Two one-column rows whose minimum has more than 4 decimal places. -/
def minRows : List Row := [[("x", CellVal.str "0.00006")], [("x", CellVal.str "2")]]

/-- Two one-column rows with values 1 and 3. -/
def smallRows : List Row := [[("x", CellVal.str "1")], [("x", CellVal.str "3")]]

/-- A tweet row with a zero favorite count. -/
def zeroFavRow : Row := [("Favorite Count", CellVal.str "0"), ("View Count", CellVal.str "10")]

/-- A tweet row whose favorite/view ratio is not a 6-decimal number. -/
def thirdRow : Row := [("Favorite Count", CellVal.str "1"), ("View Count", CellVal.str "3")]

/-- The headers of the engagement test rows. -/
def favViewHeaders : List String := ["Favorite Count", "View Count"]

/-- The three-video channel of the play_video claim. -/
def chABC : Option Channel :=
  some ⟨[[("title", CellVal.str "A"), ("view_count", CellVal.num 10)],
         [("title", CellVal.str "B"), ("view_count", CellVal.num 30)],
         [("title", CellVal.str "C"), ("view_count", CellVal.num 20)]]⟩

/-- `play_video` arguments with only a selector. -/
def selArgs (sel : String) : YtArgs := ⟨none, none, none, some sel, none⟩

/-- A channel whose videos carry `PT4M13S`, an unparseable string, and `PT1H`
as durations. -/
def durChannel : Option Channel :=
  some ⟨[[("duration", CellVal.str "PT4M13S")],
         [("duration", CellVal.str "oops")],
         [("duration", CellVal.str "PT1H")]]⟩

/-- The `min` field of a stats result, when the result is a stats record. -/
def statsMin : CsvToolResult → Option ℚ
  | .stats s => some s.min
  | _ => none

/-- A model stub that always requests one tool call (CSV loop shape). -/
def alwaysCallRespondCsv : List (ChatMsg PUnit PUnit) → Option (ModelMsg PUnit) :=
  fun _ => some ⟨none, [⟨"call-1", "some_tool", PUnit.unit⟩]⟩

/-- A model stub that always requests one tool call (YouTube loop shape). -/
def alwaysCallRespondYt : List (ChatMsg PUnit YtToolResult) → Option (ModelMsg PUnit) :=
  fun _ => some ⟨none, [⟨"call-1", "some_tool", PUnit.unit⟩]⟩

/- ── Helper lemmas ─────────────────────────────────────────────────────── -/

/-- Rounding to 4 decimal places is idempotent. -/
theorem fmt_fmt (q : ℚ) : fmt (fmt q) = fmt q := by
  unfold fmt
  have h4 : ((10000 : ℚ) : ℚ) ≠ 0 := by norm_num
  rw [div_mul_cancel₀ _ h4]
  have : ⌊(⌊q * 10000 + 1 / 2⌋ : ℚ) + 1 / 2⌋ = ⌊q * 10000 + 1 / 2⌋ + ⌊(1 / 2 : ℚ)⌋ := by
    rw [add_comm]
    rw [Int.floor_add_int]
    ring
  rw [this]
  norm_num

/-- Unfolding `getField` over a cons cell. -/
theorem getField_cons (x : String × CellVal) (l : Row) (k : String) :
    getField (x :: l) k = if x.1 == k then some x.2 else getField l k := by
  cases hx : (x.1 == k) <;> simp [getField, List.find?, hx]

/-- Reading back the key just written by `setField`. -/
theorem getField_setField (r : Row) (k : String) (v : CellVal) :
    getField (setField r k v) k = some v := by
  unfold setField
  by_cases h : r.any (fun p => p.1 == k)
  · rw [if_pos h]
    induction r with
    | nil => simp at h
    | cons p t ih =>
      rw [List.map_cons]
      cases hp : (p.1 == k) with
      | true => simp [hp, getField_cons]
      | false =>
        simp only [hp, if_false, Bool.false_eq_true]
        rw [getField_cons, if_neg (by simp [hp])]
        refine ih ?_
        rw [List.any_cons, hp, Bool.false_or] at h
        exact h
  · rw [if_neg h]
    induction r with
    | nil =>
      rw [List.nil_append, getField_cons]
      simp
    | cons p t ih =>
      rw [List.any_cons, Bool.or_eq_true, not_or] at h
      rw [List.cons_append, getField_cons, if_neg (by simpa using h.1)]
      refine ih ?_
      simpa using h.2

/-- `find?` over a list extended by an element the predicate rejects. -/
theorem find?_append_single_neg {α : Type} {p : α → Bool} {y : α}
    (l : List α) (hy : p y = false) : (l ++ [y]).find? p = l.find? p := by
  induction l with
  | nil => simp [List.find?, hy]
  | cons a t ih =>
    cases hp : p a <;> simp [List.find?, hp, ih]

/-- Appending the `engagement` header does not change the favorite-column
lookup. -/
theorem favoriteColumn_append_engagement (headers : List String) :
    favoriteColumn (headers ++ ["engagement"]) = favoriteColumn headers := by
  unfold favoriteColumn
  rw [find?_append_single_neg headers (p := fun h => searchRegex favoriteCountPat h) (by decide),
    find?_append_single_neg headers
      (p := fun h => jsToLower h == "like" || jsToLower h == "likes") (by decide)]

/-- Appending the `engagement` header does not change the view-column
lookup. -/
theorem viewColumn_append_engagement (headers : List String) :
    viewColumn (headers ++ ["engagement"]) = viewColumn headers := by
  unfold viewColumn
  rw [find?_append_single_neg headers (p := fun h => searchRegex viewCountPat h) (by decide),
    find?_append_single_neg headers
      (p := fun h => jsToLower h == "view" || jsToLower h == "views") (by decide)]

/-- The length of `filterMap` counts the elements mapped to `some`. -/
theorem length_filterMap_eq_countP {α β : Type} (f : α → Option β) (l : List α) :
    (l.filterMap f).length = l.countP (fun a => (f a).isSome) := by
  induction l with
  | nil => rfl
  | cons a t ih =>
    rw [List.filterMap_cons, List.countP_cons]
    cases hf : f a with
    | none => simp [hf, ih]
    | some b => simp [hf, ih]

/-- Stable insertion grows the length by one. -/
theorem insertCmp_length {α : Type} (cmp : α → α → ℚ) (x : α) (l : List α) :
    (insertCmp cmp x l).length = l.length + 1 := by
  induction l with
  | nil => rfl
  | cons y ys ih =>
    unfold insertCmp
    by_cases h : cmp x y < 0
    · simp [h]
    · simp [h, ih]

/-- `jsSort` preserves length. -/
theorem jsSort_length {α : Type} (cmp : α → α → ℚ) (l : List α) :
    (jsSort cmp l).length = l.length := by
  unfold jsSort
  suffices h : ∀ acc : List α, (l.foldl (fun a x => insertCmp cmp x a) acc).length
      = acc.length + l.length by
    simpa using h []
  induction l with
  | nil => intro acc; simp
  | cons y ys ih =>
    intro acc
    rw [List.foldl_cons, ih, insertCmp_length, List.length_cons]
    omega

/- ── C1: Python-only keyword routing ───────────────────────────────────── -/

/-- C1 (counterexample): the text "plot a histogram of views" matches the
Python-only keyword set, yet with channel JSON loaded and no CSV dataset the
dispatched mode is YouTube-tools, not code-execution — the claim's
"regardless of whether … channel JSON, or attached images are present" fails. -/
theorem c1_mode_counterexample :
    wantPythonOnly ⟨"plot a histogram of views", false, false, true, false⟩ = true ∧
    selectMode ⟨"plot a histogram of views", false, false, true, false⟩ ≠ Mode.codeExecution ∧
    selectMode ⟨"plot a histogram of views", false, false, true, false⟩ = Mode.youtubeTools :=
  ⟨by decide, by decide, by decide⟩

/-- C1 (amended): a Python-only keyword match forces code-execution mode
whenever the YouTube-tools branch does not fire first (i.e. except when
channel JSON is loaded or images are attached while no CSV dataset is
loaded); in particular CSV presence or attachment never overrides it. -/
theorem c1_python_only_precedence (st : SendState)
    (hkw : wantPythonOnly st = true) (hyt : useYoutubeTools st = false) :
    selectMode st = Mode.codeExecution := by
  have ht : useTools st = false := by
    unfold useTools
    rw [hkw]
    simp
  have hce : useCodeExecution st = true := by
    unfold useCodeExecution
    rw [hkw]
    simp
  simp [selectMode, hyt, ht, hce]

/-- C1 (witness): "plot a histogram of views" with a CSV dataset loaded
selects code-execution mode. -/
theorem c1_python_only_precedence_witness :
    wantPythonOnly ⟨"plot a histogram of views", true, false, false, false⟩ = true ∧
    useYoutubeTools ⟨"plot a histogram of views", true, false, false, false⟩ = false ∧
    selectMode ⟨"plot a histogram of views", true, false, false, false⟩ = Mode.codeExecution :=
  ⟨by decide, by decide, c1_python_only_precedence _ (by decide) (by decide)⟩

/- ── C6: short tabular input ───────────────────────────────────────────── -/

/-- C6: for every input with fewer than 2 non-blank lines the parser returns
the empty result `{headers: [], rows: []}` (it is a total function — no error
is raised on any input). -/
theorem c6_parser_short_input (text : String) (h : (csvLines text).length < 2) :
    parseCsvToRows text = ⟨[], []⟩ := by
  unfold parseCsvToRows
  rw [if_pos h]

/-- C6 (witness): a single non-blank line parses to the empty result. -/
theorem c6_parser_short_input_witness :
    (csvLines "a,b\n \n").length < 2 ∧ parseCsvToRows "a,b\n \n" = ⟨[], []⟩ :=
  ⟨by decide, c6_parser_short_input _ (by decide)⟩

/- ── C8: play_video selector resolution ────────────────────────────────── -/

/-- C8: on the channel ["A","B","C"] with views [10,30,20], selector
"most viewed" returns the video titled "B", "first" returns "A", and the
out-of-range "4" returns a structured error result. -/
theorem c8_play_video_selectors :
    (executeYoutubeTool "play_video" (selArgs "most viewed") chABC none none).1 =
      .playVideo (.str "B") (.str "") (.str "https://www.youtube.com/watch?v=undefined") .undefined ∧
    (executeYoutubeTool "play_video" (selArgs "first") chABC none none).1 =
      .playVideo (.str "A") (.str "") (.str "https://www.youtube.com/watch?v=undefined") .undefined ∧
    (executeYoutubeTool "play_video" (selArgs "4") chABC none none).1 =
      .error "No video found for \"4\"" :=
  ⟨by with_unfolding_all decide, by with_unfolding_all decide, by with_unfolding_all decide⟩

/- ── C9: no-data guard and the generateImage exemption ─────────────────── -/

/-- C9: with no videos loaded every YouTube tool except `generateImage`
returns the structured no-data error, while `generateImage` always proceeds
to the image-generation delegate with the requested prompt (whether or not
channel data is loaded). -/
theorem c9_no_data_guard (toolName : String) (args : YtArgs) (ch : Option Channel)
    (anchor : Option String) (gfn : Option (Option String → Option String → YtToolResult))
    (hvid : channelVideos ch = []) :
    (toolName ≠ "generateImage" →
      (executeYoutubeTool toolName args ch anchor gfn).1 = .error noDataMsg) ∧
    (∀ f : Option String → Option String → YtToolResult,
      (executeYoutubeTool "generateImage" args ch anchor (some f)).1 = f args.prompt anchor) := by
  constructor
  · intro hname
    unfold executeYoutubeTool
    rw [hvid]
    rw [if_pos ⟨rfl, hname⟩]
  · intro f
    unfold executeYoutubeTool
    rw [if_neg (by simp)]
    rw [if_pos rfl]

/-- C9 (witness): `play_video` with no channel data errors; `generateImage`
reaches the delegate. -/
theorem c9_no_data_guard_witness :
    (("play_video" ≠ "generateImage" →
      (executeYoutubeTool "play_video" (selArgs "first") none none none).1 = .error noDataMsg) ∧
    (∀ f : Option String → Option String → YtToolResult,
      (executeYoutubeTool "generateImage" (selArgs "first") none none (some f)).1 =
        f (selArgs "first").prompt none)) :=
  c9_no_data_guard "play_video" (selArgs "first") none none none rfl

/- ── C10: executors leave their datasets unchanged ─────────────────────── -/

/-- The stats case keeps the rows array intact. -/
theorem csvComputeColumnStats_snd (args : CsvArgs) (rows : List Row) :
    (csvComputeColumnStats args rows).2 = rows := by
  simp only [csvComputeColumnStats]
  split <;> rfl

/-- The value-counts case keeps the rows array intact. -/
theorem csvGetValueCounts_snd (args : CsvArgs) (rows : List Row) :
    (csvGetValueCounts args rows).2 = rows := rfl

/-- The top-tweets case keeps the rows array intact (it sorts a copy). -/
theorem csvGetTopTweets_snd (args : CsvArgs) (rows : List Row) :
    (csvGetTopTweets args rows).2 = rows := by
  simp only [csvGetTopTweets]
  repeat (first | rfl | split)

/-- The metric-plot case keeps the videos array intact. -/
theorem ytPlotMetricVsTime_snd (args : YtArgs) (videos : List Row) :
    (ytPlotMetricVsTime args videos).2 = videos := by
  simp only [ytPlotMetricVsTime]
  split <;> rfl

/-- The play-video case keeps the videos array intact (it sorts a copy). -/
theorem ytPlayVideo_snd (args : YtArgs) (videos : List Row) :
    (ytPlayVideo args videos).2 = videos := by
  simp only [ytPlayVideo]
  split <;> rfl

/-- The stats-json case keeps the videos array intact. -/
theorem ytComputeStatsJson_snd (args : YtArgs) (videos : List Row) :
    (ytComputeStatsJson args videos).2 = videos := by
  simp only [ytComputeStatsJson]
  repeat (first | rfl | split)

/-- C10: no tool executor mutates its dataset — for every tool name and
arguments, `executeTool` leaves the rows array unchanged and
`executeYoutubeTool` leaves the videos array unchanged. -/
theorem c10_executors_preserve_data (toolName : String) (args : CsvArgs) (rows : List Row)
    (yargs : YtArgs) (ch : Option Channel) (anchor : Option String)
    (gfn : Option (Option String → Option String → YtToolResult)) :
    (executeTool toolName args rows).2 = rows ∧
    (executeYoutubeTool toolName yargs ch anchor gfn).2 = channelVideos ch := by
  constructor
  · unfold executeTool
    split_ifs
    · exact csvComputeColumnStats_snd args rows
    · exact csvGetValueCounts_snd args rows
    · exact csvGetTopTweets_snd args rows
    · rfl
  · unfold executeYoutubeTool
    split_ifs
    · rfl
    · cases gfn <;> rfl
    · exact ytPlotMetricVsTime_snd yargs _
    · exact ytPlayVideo_snd yargs _
    · exact ytComputeStatsJson_snd yargs _
    · rfl

/- ── C2: the orchestrator round bound ──────────────────────────────────── -/

/-- Under a model that always requests at least one tool call, the round loop
always exhausts its fuel, returns empty text, and logs at least one call per
round. -/
theorem chatRoundsAux_forced {A R : Type}
    (respond : List (ChatMsg A R) → Option (ModelMsg A)) (execute : String → A → R)
    (hasChartType : R → Bool) (sanitize : R → R)
    (h : ∀ msgs, ∃ m, respond msgs = some m ∧ m.tool_calls ≠ []) :
    ∀ (fuel : ℕ) (msgs : List (ChatMsg A R)) (charts : List R) (calls : List (ToolCallRec A R)),
      (chatRoundsAux respond execute hasChartType sanitize fuel msgs charts calls).text = "" ∧
      calls.length + fuel ≤
        (chatRoundsAux respond execute hasChartType sanitize fuel msgs charts calls).toolCalls.length := by
  intro fuel
  induction fuel with
  | zero =>
    intro msgs charts calls
    exact ⟨rfl, by simp [chatRoundsAux]⟩
  | succ k ih =>
    intro msgs charts calls
    obtain ⟨m, hm, hne⟩ := h msgs
    have hempty : m.tool_calls.isEmpty = false := by
      cases hmc : m.tool_calls with
      | nil => exact absurd hmc hne
      | cons a t => rfl
    have hlen : 1 ≤ m.tool_calls.length := by
      cases hmc : m.tool_calls with
      | nil => exact absurd hmc hne
      | cons a t => simp
    unfold chatRoundsAux
    rw [hm]
    dsimp only
    rw [hempty]
    simp only [Bool.false_eq_true, if_false]
    obtain ⟨ht, hl⟩ := ih
      ((msgs ++ [ChatMsg.assistantCalls m.content m.tool_calls])
        ++ (m.tool_calls.map (fun tc => (tc, execute tc.name tc.args))).map
            (fun p => ChatMsg.toolResult p.1.id (sanitize p.2)))
      (charts ++ ((m.tool_calls.map (fun tc => (tc, execute tc.name tc.args))).map
          (fun p => p.2)).filter hasChartType)
      (calls ++ (m.tool_calls.map (fun tc => (tc, execute tc.name tc.args))).map
          (fun p => ⟨p.1.name, p.1.args, p.2⟩))
    refine ⟨ht, le_trans ?_ hl⟩
    rw [List.length_append, List.length_map, List.length_map]
    omega

/-- C2: with a model that requests at least one tool call in every response,
neither orchestrator ever converges — after the 5-round bound both
`chatWithCsvTools` and `chatWithYoutubeTools` return `text = ""` together
with a tool-call log of length at least 5 (and the accumulated charts). -/
theorem c2_round_bound {A R : Type}
    (respond : List (ChatMsg A R) → Option (ModelMsg A)) (execute : String → A → R)
    (hasChartType : R → Bool) (base : List (ChatMsg A R))
    (respondY : List (ChatMsg A YtToolResult) → Option (ModelMsg A))
    (executeY : String → A → YtToolResult) (baseY : List (ChatMsg A YtToolResult))
    (h : ∀ msgs, ∃ m, respond msgs = some m ∧ m.tool_calls ≠ [])
    (hY : ∀ msgs, ∃ m, respondY msgs = some m ∧ m.tool_calls ≠ []) :
    (chatWithCsvTools respond execute hasChartType base).text = "" ∧
    5 ≤ (chatWithCsvTools respond execute hasChartType base).toolCalls.length ∧
    (chatWithYoutubeTools respondY executeY baseY).text = "" ∧
    5 ≤ (chatWithYoutubeTools respondY executeY baseY).toolCalls.length := by
  obtain ⟨t1, l1⟩ := chatRoundsAux_forced respond execute hasChartType (fun r => r) h 5 base [] []
  obtain ⟨t2, l2⟩ :=
    chatRoundsAux_forced respondY executeY ytHasChartType ytSanitizeForApi hY 5 baseY [] []
  exact ⟨t1, by simpa using l1, t2, by simpa using l2⟩

/-- C2 (witness): the always-calling model stub drives both loops to the
5-round bound. -/
theorem c2_round_bound_witness :
    (chatWithCsvTools alwaysCallRespondCsv (fun _ _ => PUnit.unit) (fun _ => false) []).text = "" ∧
    5 ≤ (chatWithCsvTools alwaysCallRespondCsv (fun _ _ => PUnit.unit)
          (fun _ => false) []).toolCalls.length ∧
    (chatWithYoutubeTools alwaysCallRespondYt (fun _ _ => .error "e") []).text = "" ∧
    5 ≤ (chatWithYoutubeTools alwaysCallRespondYt (fun _ _ => .error "e") []).toolCalls.length :=
  c2_round_bound alwaysCallRespondCsv (fun _ _ => PUnit.unit) (fun _ => false) []
    alwaysCallRespondYt (fun _ _ => .error "e") []
    (fun _ => ⟨_, rfl, by simp⟩) (fun _ => ⟨_, rfl, by simp⟩)

/- ── C3: compute_column_stats ──────────────────────────────────────────── -/

/-- C3 (counterexample): on the column values 0.00006 and 2 the returned
`min` is 0.00006, which is not a 4-decimal-rounded value — so not every
numeric field of the stats record is rounded to 4 decimal places. -/
theorem c3_stats_min_counterexample :
    statsMin (executeTool "compute_column_stats" ⟨some "x", none, none, none, none⟩ minRows).1 =
      some (3 / 50000) ∧ fmt (3 / 50000) ≠ (3 / 50000 : ℚ) :=
  ⟨by decide!, by decide!⟩

/-- C3 (amended): whenever `compute_column_stats` returns a stats record,
`count` is the number of parseable numeric entries of the resolved column,
`mean` and `median` are rounded to 4 decimal places (and are fixed points of
that rounding), the variance divisor is the count (population, not sample),
`std` is the rounded square root of that population variance, and `min`/`max`
are the raw unrounded extremes of the parsed values. -/
theorem c3_column_stats (args : CsvArgs) (rows : List Row) (s : ColumnStats) (vals : List ℚ)
    (hvals : vals = numericValues rows (resolveCol rows args.column))
    (h : (executeTool "compute_column_stats" args rows).1 = CsvToolResult.stats s) :
    s.count = vals.length ∧
    s.mean = fmt (vals.sum / vals.length) ∧ fmt s.mean = s.mean ∧
    s.median = fmt (medianSorted (jsSort (fun a b => a - b) vals)) ∧ fmt s.median = s.median ∧
    s.variance = (vals.map (fun v => (v - vals.sum / vals.length) ^ 2)).sum / vals.length ∧
    ColumnStats.std s =
      stdOfVariance ((vals.map (fun v => (v - vals.sum / vals.length) ^ 2)).sum / vals.length) ∧
    s.min = listMin vals ∧ s.max = listMax vals := by
  subst hvals
  have hb : (executeTool "compute_column_stats" args rows).1 = (csvComputeColumnStats args rows).1 :=
    rfl
  rw [hb] at h
  simp only [csvComputeColumnStats] at h
  split at h
  · exact absurd h (by simp)
  · injection h with h2
    subst h2
    exact ⟨rfl, rfl, fmt_fmt _, rfl, fmt_fmt _, rfl, rfl, rfl, rfl⟩

/-- C3 (witness): on values {1, 3} the stats record is
{count 2, mean 2, median 2, variance 1, min 1, max 3}. -/
theorem c3_column_stats_witness :
    ([1, 3] : List ℚ) = numericValues smallRows (resolveCol smallRows (some "x")) ∧
    (executeTool "compute_column_stats" ⟨some "x", none, none, none, none⟩ smallRows).1 =
      CsvToolResult.stats ⟨some "x", 2, 2, 2, 1, 1, 3⟩ ∧
    ((2 : ℕ) = ([1, 3] : List ℚ).length ∧
      (2 : ℚ) = fmt (([1, 3] : List ℚ).sum / ([1, 3] : List ℚ).length) ∧
      fmt (2 : ℚ) = 2 ∧
      (2 : ℚ) = fmt (medianSorted (jsSort (fun a b => a - b) [1, 3])) ∧ fmt (2 : ℚ) = 2 ∧
      (1 : ℚ) = (([1, 3] : List ℚ).map
          (fun v => (v - ([1, 3] : List ℚ).sum / ([1, 3] : List ℚ).length) ^ 2)).sum
            / ([1, 3] : List ℚ).length ∧
      ColumnStats.std ⟨some "x", 2, 2, 2, 1, 1, 3⟩ =
        stdOfVariance ((([1, 3] : List ℚ).map
          (fun v => (v - ([1, 3] : List ℚ).sum / ([1, 3] : List ℚ).length) ^ 2)).sum
            / ([1, 3] : List ℚ).length) ∧
      (1 : ℚ) = listMin [1, 3] ∧ (3 : ℚ) = listMax [1, 3]) :=
  ⟨by with_unfolding_all decide, by with_unfolding_all decide,
    c3_column_stats ⟨some "x", none, none, none, none⟩ smallRows ⟨some "x", 2, 2, 2, 1, 1, 3⟩
      [1, 3] (by with_unfolding_all decide) (by with_unfolding_all decide)⟩

/- ── C4: the engagement value ──────────────────────────────────────────── -/

/-- C4 (counterexample): a row with favorite count 0 and view count 10 — the
favorite count is not a positive number, yet the enriched "engagement" field
is the number 0, not null, contradicting "null otherwise". -/
theorem c4_engagement_counterexample :
    (enrichWithEngagement [zeroFavRow] favViewHeaders).1 =
      [[("Favorite Count", CellVal.str "0"), ("View Count", CellVal.str "10"),
        ("engagement", CellVal.num 0)]] ∧
    CellVal.num 0 ≠ CellVal.null :=
  ⟨by with_unfolding_all decide, by decide⟩

/-- C4 (amended): in an enriched dataset, every row's "engagement" field is
favorite-count divided by view-count rounded to 6 decimal places whenever
both counts parse as numbers and the view count is positive (the favorite
count may be zero or negative), and null otherwise. -/
theorem c4_engagement_value (rows : List Row) (headers : List String) (fc vc : String)
    (hrows : rows ≠ [])
    (hfav : favoriteColumn headers = some fc)
    (hview : viewColumn headers = some vc)
    (heng : headers.contains "engagement" = false) :
    ∀ i, i < rows.length →
      getField ((enrichWithEngagement rows headers).1.getD i []) "engagement" =
        some (match parseFloatVal (jsGet (rows.getD i []) fc),
                    parseFloatVal (jsGet (rows.getD i []) vc) with
              | some fav, some view =>
                if 0 < view then CellVal.num (fmt6 (fav / view)) else CellVal.null
              | _, _ => CellVal.null) := by
  intro i hi
  have hr : rows.isEmpty = false := by
    cases rows with
    | nil => exact absurd rfl hrows
    | cons a t => rfl
  unfold enrichWithEngagement
  rw [hr]
  simp only [Bool.false_eq_true, if_false]
  rw [hfav, hview]
  dsimp only
  rw [heng]
  simp only [Bool.false_eq_true, if_false]
  have hget : rows.get? i = some (rows.get ⟨i, hi⟩) := List.get?_eq_get hi
  rw [List.getD, List.getD, List.get?_map, hget]
  dsimp only [Option.map_some, Option.getD_some]
  exact getField_setField _ _ _

/-- C4 (witness): favorite 1, view 3 — engagement is 1/3 rounded to
0.333333. -/
theorem c4_engagement_value_witness :
    ([thirdRow] : List Row) ≠ [] ∧
    favoriteColumn favViewHeaders = some "Favorite Count" ∧
    viewColumn favViewHeaders = some "View Count" ∧
    favViewHeaders.contains "engagement" = false ∧
    (∀ i, i < ([thirdRow] : List Row).length →
      getField ((enrichWithEngagement [thirdRow] favViewHeaders).1.getD i []) "engagement" =
        some (match parseFloatVal (jsGet (([thirdRow] : List Row).getD i []) "Favorite Count"),
                    parseFloatVal (jsGet (([thirdRow] : List Row).getD i []) "View Count") with
              | some fav, some view =>
                if 0 < view then CellVal.num (fmt6 (fav / view)) else CellVal.null
              | _, _ => CellVal.null)) :=
  ⟨by decide, by decide, by decide, by decide,
    c4_engagement_value [thirdRow] favViewHeaders "Favorite Count" "View Count"
      (by decide) (by decide) (by decide) (by decide)⟩

/- ── C5: enrichment idempotence ────────────────────────────────────────── -/

/-- C5: enriching twice equals enriching once — the second application is a
no-op because either the first one already was, or it appended the
`engagement` header that makes the second call return its input unchanged. -/
theorem c5_enrichment_idempotent (rows : List Row) (headers : List String) :
    enrichWithEngagement (enrichWithEngagement rows headers).1
        (enrichWithEngagement rows headers).2 =
      enrichWithEngagement rows headers := by
  by_cases hr : rows.isEmpty
  · have h1 : enrichWithEngagement rows headers = (rows, headers) := by
      unfold enrichWithEngagement
      rw [hr]
      rfl
    rw [h1]
    unfold enrichWithEngagement
    rw [hr]
    rfl
  · have hrb : rows.isEmpty = false := by simpa using hr
    cases hfav : favoriteColumn headers with
    | none =>
      have h1 : enrichWithEngagement rows headers = (rows, headers) := by
        unfold enrichWithEngagement
        rw [hrb]
        simp only [Bool.false_eq_true, if_false]
        rw [hfav]
      rw [h1]
      unfold enrichWithEngagement
      rw [hrb]
      simp only [Bool.false_eq_true, if_false]
      rw [hfav]
    | some fc =>
      cases hview : viewColumn headers with
      | none =>
        have h1 : enrichWithEngagement rows headers = (rows, headers) := by
          unfold enrichWithEngagement
          rw [hrb]
          simp only [Bool.false_eq_true, if_false]
          rw [hfav, hview]
        rw [h1]
        unfold enrichWithEngagement
        rw [hrb]
        simp only [Bool.false_eq_true, if_false]
        rw [hfav, hview]
      | some vc =>
        by_cases heng : headers.contains "engagement"
        · have h1 : enrichWithEngagement rows headers = (rows, headers) := by
            unfold enrichWithEngagement
            rw [hrb]
            simp only [Bool.false_eq_true, if_false]
            rw [hfav, hview]
            dsimp only
            rw [if_pos heng]
          rw [h1]
          unfold enrichWithEngagement
          rw [hrb]
          simp only [Bool.false_eq_true, if_false]
          rw [hfav, hview]
          dsimp only
          rw [if_pos heng]
        · have hengb : headers.contains "engagement" = false := by simpa using heng
          have h1 : enrichWithEngagement rows headers =
              (rows.map (fun r => setField r "engagement" (engagementCell r fc vc)),
               headers ++ ["engagement"]) := by
            unfold enrichWithEngagement
            rw [hrb]
            simp only [Bool.false_eq_true, if_false]
            rw [hfav, hview]
            dsimp only
            rw [hengb]
            simp only [Bool.false_eq_true, if_false]
          rw [h1]
          have hr2 : (rows.map
              (fun r => setField r "engagement" (engagementCell r fc vc))).isEmpty = false := by
            cases rows with
            | nil => simp at hr
            | cons a t => rfl
          unfold enrichWithEngagement
          rw [hr2]
          simp only [Bool.false_eq_true, if_false]
          rw [favoriteColumn_append_engagement, viewColumn_append_engagement, hfav, hview]
          dsimp only
          rw [if_pos (by simp)]

/- ── C7: ISO-8601 duration parsing ─────────────────────────────────────── -/

/-- C7 (counterexample): "ADOPT" cannot be parsed as an ISO-8601 duration
(per the spec's "PT#H#M#S" format), yet `parseDuration` returns 0 rather
than null, because the unanchored regex matches the "PT" inside it. -/
theorem c7_duration_counterexample :
    specIsoDuration "ADOPT" = false ∧ parseDuration "ADOPT" = some 0 ∧
    (some 0 : Option ℕ) ≠ none :=
  ⟨by decide, by decide, by decide⟩

/-- C7 (amended): parseDuration("PT4M13S") = 253 and parseDuration("PT1H") =
3600; a string in which "PT" never occurs parses to null; and null durations
are excluded from compute_stats_json statistics — the returned count equals
the number of videos whose duration resolves to a value.  (A non-duration
string that does contain "PT" parses to 0, not null.) -/
theorem c7_duration_parsing (args : YtArgs) (ch : Option Channel) (anchor : Option String)
    (gfn : Option (Option String → Option String → YtToolResult))
    (f : String) (cnt : ℕ) (mn md vr mi mx : ℚ)
    (hfield : args.field = some "duration")
    (h : (executeYoutubeTool "compute_stats_json" args ch anchor gfn).1 =
         .statsJson f cnt mn md vr mi mx) :
    parseDuration "PT4M13S" = some 253 ∧
    parseDuration "PT1H" = some 3600 ∧
    (∀ s : String, findPT s.toList = none → parseDuration s = none) ∧
    cnt = (channelVideos ch).countP (fun v => (ytStatValue "duration" v).isSome) := by
  refine ⟨by decide, by decide, ?_, ?_⟩
  · intro s hs
    unfold parseDuration
    rw [hs]
  · unfold executeYoutubeTool at h
    split at h
    · exact absurd h (by simp)
    · rw [if_neg (by decide), if_neg (by decide), if_neg (by decide), if_pos rfl] at h
      simp only [ytComputeStatsJson, hfield, Option.getD_some] at h
      split at h
      · exact absurd h (by simp)
      · injection h with h1 h2 h3 h4 h5 h6 h7
        rw [← h2, jsSort_length, length_filterMap_eq_countP]

/-- C7 (witness): on durations {"PT4M13S", "oops", "PT1H"} the statistics
cover exactly the 2 parseable values (count 2, mean = median = 1926.5). -/
theorem c7_duration_parsing_witness :
    (⟨none, none, none, none, some "duration"⟩ : YtArgs).field = some "duration" ∧
    (executeYoutubeTool "compute_stats_json" ⟨none, none, none, none, some "duration"⟩
        durChannel none none).1 =
      .statsJson "duration" 2 (3853 / 2) (3853 / 2) (11202409 / 4) 253 3600 ∧
    (parseDuration "PT4M13S" = some 253 ∧
      parseDuration "PT1H" = some 3600 ∧
      (∀ s : String, findPT s.toList = none → parseDuration s = none) ∧
      2 = (channelVideos durChannel).countP (fun v => (ytStatValue "duration" v).isSome)) :=
  ⟨rfl, by decide!,
    c7_duration_parsing ⟨none, none, none, none, some "duration"⟩ durChannel none none
      "duration" 2 (3853 / 2) (3853 / 2) (11202409 / 4) 253 3600 rfl
      (by decide!)⟩

end ReactChat
